import Mathlib

/-!
Verification of the registry endpoint resolver (`registry/service.go`).

The Go source is shallowly embedded below.  Pure data (endpoint candidates,
TLS configurations, errors) become Lean structures; the fallible functions
(`tlsConfigForMirror`, `lookupEndpoints`, `LookupPullEndpoints`,
`LookupPushEndpoints`) return `Except`.  External collaborators that are not
part of the source file (the configuration's security classification, TLS
config construction, Go's `net/url` parser, `runtime.GOOS`) are modelled from
the specification and clearly marked as such.  The diagnostic logging the
source performs on `/tmp/myDocker.log` is embedded separately as an explicit
effect trace (`lookupEndpointsEffects`).
-/

namespace Registry

deriving instance DecidableEq for Except

/-- Go `strings.IndexRune`: index of the first occurrence of `c` in the char
list, `-1` if absent.  Go returns a byte index; for the two uses in the source
(comparison with `0` and slicing at the first `'/'`) the character index is
observationally identical, since the prefix of a UTF-8 string before its first
`'/'` is the same sequence of characters either way. -/
def indexOfChar : List Char → Char → Int
  | [], _ => -1
  | x :: xs, c =>
      if x == c then 0
      else
        let r := indexOfChar xs c
        if r < 0 then -1 else r + 1

/-- `strings.IndexRune(s, c)` from the Go standard library. -/
def stringsIndexRune (s : String) (c : Char) : Int :=
  indexOfChar s.toList c

/-- Go `strings.HasPrefix(s, pre)` on character lists (first argument is the
string, second the candidate leading segment), structural so it reduces in the
kernel. -/
def listHasPrefix : List Char → List Char → Bool
  | _, [] => true
  | [], _ :: _ => false
  | x :: xs, y :: ys => x == y && listHasPrefix xs ys

/-- Go `strings.HasPrefix(s, pre)`. -/
def goHasPrefix (s pre : String) : Bool :=
  listHasPrefix s.toList pre.toList

/-- Whether a URL string literally begins with the plaintext scheme
`http://` (and not `https://`). -/
def schemeIsHttp (u : String) : Bool :=
  match u.toList with
  | 'h' :: 't' :: 't' :: 'p' :: ':' :: '/' :: '/' :: _ => true
  | _ => false

/-- `APIVersion` with its two constants `APIVersion1` and `APIVersion2`. -/
inductive APIVersion where
  | v1
  | v2
deriving DecidableEq, Repr

/-- `auth.APIVersion` (distribution client): a protocol descriptor with a
type string and a version string, e.g. `registry/2.0`. -/
structure AuthAPIVersion where
  dtype : String
  version : String
deriving DecidableEq, Repr

/-- `tls.Config` restricted to the fields this resolver reads or sets:
whether certificate verification is skipped, and the custom certificate
material layered in for the host (abstracted as strings). -/
structure TLSConfig where
  insecureSkipVerify : Bool
  rootCAs : List String
deriving DecidableEq, Repr

/-- `tlsconfig.ServerDefault`: the verifying default server trust policy. -/
def serverDefault : TLSConfig :=
  { insecureSkipVerify := false, rootCAs := [] }

/-- `APIEndpoint` (service.go lines 85-94).  Field defaults are Go zero
values, matching struct literals in the source that omit fields. -/
structure APIEndpoint where
  mirror : Bool := false
  url : String
  version : APIVersion
  official : Bool := false
  trimHostname : Bool := false
  tlsConfig : TLSConfig
  versionHeader : String := ""
  versions : List AuthAPIVersion := []
deriving DecidableEq, Repr

/-- The error values the resolver can produce: the invalid-repository-name
error built by `fmt.Errorf` at line 190, or an error propagated from URL
parsing in `tlsConfigForMirror`. -/
inductive GoError where
  | invalidRepoName (repoName : String)
  | parseError (msg : String)
deriving DecidableEq, Repr

/-- Modelled from the spec: the result of Go `url.Parse`, restricted to the
one field the source reads (`.Host`). -/
structure GoURL where
  host : String
deriving DecidableEq, Repr

/-- Modelled from the spec: Go's `net/url` parser, an external collaborator
not in the source; `parse` may fail on a malformed URL ("malformed
mirror/endpoint URL ... surfaces as a parse error"). -/
structure URLLib where
  parse : String → Except String GoURL

/-- Modelled from the spec: `DefaultNamespace`, the default (official)
namespace prefix, a constant of the contract. -/
def DefaultNamespace : String := "library"

/-- Modelled from the spec: the canonical v2 registry base URL, a constant of
the contract. -/
def DefaultV2Registry : String := "https://registry-1.docker.io"

/-- Modelled from the spec: the canonical v1 registry base URL, a constant of
the contract. -/
def DefaultV1Registry : String := "https://index.docker.io"

/-- Modelled from the spec: the protocol-version discovery header name, a
constant of the contract. -/
def DefaultRegistryVersionHeader : String := "Docker-Distribution-Api-Version"

/-- Modelled from the spec: `ServiceConfig`, the registry configuration
collaborator, consumed read-only.  `mirrors` is the ordered mirror list;
`insecureRegistries` is the explicit allow-list of hosts classified insecure
(everything else defaults secure); `certBundles` is the custom CA/certificate
material already loaded by configuration for a given hostname. -/
structure ServiceConfig where
  mirrors : List String
  insecureRegistries : List String
  certBundles : String → List String

/-- Modelled from the spec: `ServiceConfig.isSecureIndex` — per-host security
classification: an explicit allow-list of insecure hosts, everything else
defaults secure. -/
def ServiceConfig.isSecureIndex (c : ServiceConfig) (hostname : String) : Bool :=
  !(c.insecureRegistries.contains hostname)

/-- Modelled from the spec: `newTLSConfig(hostname, isSecure)` — if classified
secure, a verifying policy layering in any custom certificate material
registered for that exact hostname; if classified insecure, a
skip-verification policy.  Per spec section 4.1 this step has no failure mode
of its own (URL parse errors arise before it, in `tlsConfigForMirror`). -/
def newTLSConfig (certBundleFor : String → List String) (hostname : String)
    (isSecure : Bool) : TLSConfig :=
  if isSecure then
    { insecureSkipVerify := false, rootCAs := certBundleFor hostname }
  else
    { insecureSkipVerify := true, rootCAs := [] }

/-- `Service` (service.go lines 20-22). -/
structure Service where
  config : ServiceConfig

/-- `Service.TLSConfig` (service.go lines 102-104): constructs a client TLS
configuration based on server defaults.  In this model `newTLSConfig` is
total, so the error component is always absent. -/
def Service.TLSConfig (s : Service) (hostname : String) : Except GoError TLSConfig :=
  .ok (newTLSConfig s.config.certBundles hostname (s.config.isSecureIndex hostname))

/-- `Service.tlsConfigForMirror` (service.go lines 106-112): parse the mirror
URL, propagating a parse failure, then resolve trust against the mirror's own
host. -/
def Service.tlsConfigForMirror (s : Service) (lib : URLLib) (mirror : String) :
    Except GoError Registry.TLSConfig :=
  match lib.parse mirror with
  | .error e => .error (.parseError e)
  | .ok mirrorURL => s.TLSConfig mirrorURL.host

/-- The mirror loop of `lookupEndpoints` (service.go lines 146-161): for each
configured mirror in order, resolve its trust (aborting the whole computation
on failure) and emit a v2 mirror candidate. -/
def mirrorEndpoints (s : Service) (lib : URLLib) : List String → Except GoError (List APIEndpoint)
  | [] => .ok []
  | mirror :: rest =>
      match s.tlsConfigForMirror lib mirror with
      | .error e => .error e
      | .ok mirrorTLSConfig =>
          match mirrorEndpoints s lib rest with
          | .error e => .error e
          | .ok tail =>
              .ok ({ url := mirror, version := .v2, mirror := true,
                     trimHostname := true, tlsConfig := mirrorTLSConfig } :: tail)

/-- The hostname extracted at service.go line 192: `repoName[:slashIndex]`,
the characters before the first `'/'`. -/
def hostnameOf (repoName : String) : String :=
  String.mk (repoName.toList.take (stringsIndexRune repoName '/').toNat)

/-- The v2 advertised-versions list built at service.go lines 200-205. -/
def v2Versions : List AuthAPIVersion :=
  [{ dtype := "registry", version := "2.0" }]

/-- `Service.lookupEndpoints` (service.go lines 136-244), with the diagnostic
logging factored out into `lookupEndpointsEffects` below (the log writes do
not influence the returned value).  `goos` embeds `runtime.GOOS`. -/
def Service.lookupEndpoints (s : Service) (lib : URLLib) (goos : String)
    (repoName : String) : Except GoError (List APIEndpoint) :=
  let tlsConfig := serverDefault
  match mirrorEndpoints s lib s.config.mirrors with
  | .error e => .error e
  | .ok endpoints =>
    if goHasPrefix repoName (DefaultNamespace ++ "/") then
      let endpoints := endpoints ++
        [{ url := DefaultV2Registry, version := .v2, official := true,
           trimHostname := true, tlsConfig := tlsConfig }]
      -- do not inherit legacy API for OSes supported in the future
      let endpoints :=
        if goos == "linux" then
          endpoints ++
            [{ url := DefaultV1Registry, version := .v1, official := true,
               trimHostname := true, tlsConfig := tlsConfig }]
        else endpoints
      .ok endpoints
    else
      let slashIndex := stringsIndexRune repoName '/'
      if slashIndex ≤ 0 then
        .error (.invalidRepoName repoName)
      else
        let hostname := hostnameOf repoName
        match s.TLSConfig hostname with
        | .error e => .error e
        | .ok tlsConfig =>
          let isSecure := !tlsConfig.insecureSkipVerify
          let endpoints := endpoints ++
            [{ url := "https://" ++ hostname, version := .v2,
               trimHostname := true, tlsConfig := tlsConfig,
               versionHeader := DefaultRegistryVersionHeader,
               versions := v2Versions },
             { url := "https://" ++ hostname, version := .v1,
               trimHostname := true, tlsConfig := tlsConfig }]
          let endpoints :=
            if !isSecure then
              endpoints ++
                [{ url := "http://" ++ hostname, version := .v2,
                   trimHostname := true,
                   -- used to check if supposed to be secure via InsecureSkipVerify
                   tlsConfig := tlsConfig,
                   versionHeader := DefaultRegistryVersionHeader,
                   versions := v2Versions },
                 { url := "http://" ++ hostname, version := .v1,
                   trimHostname := true,
                   -- used to check if supposed to be secure via InsecureSkipVerify
                   tlsConfig := tlsConfig }]
            else endpoints
          .ok endpoints

/-- `Service.LookupPullEndpoints` (service.go lines 117-119). -/
def Service.LookupPullEndpoints (s : Service) (lib : URLLib) (goos : String)
    (repoName : String) : Except GoError (List APIEndpoint) :=
  s.lookupEndpoints lib goos repoName

/-- `Service.LookupPushEndpoints` (service.go lines 124-134): the pull
computation, then (on success) keep only the non-mirror candidates. -/
def Service.LookupPushEndpoints (s : Service) (lib : URLLib) (goos : String)
    (repoName : String) : Except GoError (List APIEndpoint) :=
  match s.lookupEndpoints lib goos repoName with
  | .error e => .error e
  | .ok allEndpoints => .ok (allEndpoints.filter (fun endpoint => !endpoint.mirror))

/-- The trust policy `lookupEndpoints` resolves at service.go line 194 for the
host extracted from a non-official repository name. -/
def hostTLSConfig (s : Service) (repoName : String) : TLSConfig :=
  newTLSConfig s.config.certBundles (hostnameOf repoName)
    (s.config.isSecureIndex (hostnameOf repoName))

/-- Whether a lookup result contains any candidate whose URL uses the
plaintext `http://` scheme. -/
def anyHttpCandidate (r : Except GoError (List APIEndpoint)) : Bool :=
  match r with
  | .ok endpoints => endpoints.any (fun e => schemeIsHttp e.url)
  | .error _ => false

/-! ### Effect trace of the diagnostic logging

`lookupEndpoints` (service.go lines 140-143, 152, 165, 175, 184, 207, 224,
242 and the deferred close at line 141) opens `/tmp/myDocker.log` for append,
writes dated log lines at fixed program points, and closes the file when the
function returns.  The log-line text includes wall-clock timestamps and is
abstracted away; the trace records which operation touches which resource, in
program order.  No other effect occurs in the source. -/

/-- The fixed diagnostic log path opened at service.go line 140. -/
def logPath : String := "/tmp/myDocker.log"

/-- One observable side effect: a filesystem operation on a path, or network
I/O to an address (the source performs none of the latter; the constructor
exists so that absence is expressible). -/
inductive Effect where
  | fsOpenAppend (path : String)
  | fsWrite (path : String)
  | fsClose (path : String)
  | network (addr : String)
deriving DecidableEq, Repr

/-- Whether an effect is a filesystem operation on the given path (in
particular, `false` for any network effect). -/
def Effect.isFileOpOn (e : Effect) (path : String) : Bool :=
  match e with
  | .fsOpenAppend p => p == path
  | .fsWrite p => p == path
  | .fsClose p => p == path
  | .network _ => false

/-- Log writes of the mirror loop: one write per mirror whose trust resolves
(service.go line 152), stopping at the first failure (the early return at
line 149). -/
def mirrorEffects (s : Service) (lib : URLLib) : List String → List Effect
  | [] => []
  | mirror :: rest =>
      match s.tlsConfigForMirror lib mirror with
      | .error _ => []
      | .ok _ => .fsWrite logPath :: mirrorEffects s lib rest

/-- The side-effect trace of one `lookupEndpoints` call, following the
source's control flow: open and the `repoName` line first (lines 140-143),
then the per-branch log lines, then the deferred close. -/
def Service.lookupEndpointsEffects (s : Service) (lib : URLLib) (goos : String)
    (repoName : String) : List Effect :=
  [.fsOpenAppend logPath, .fsWrite logPath] ++ mirrorEffects s lib s.config.mirrors ++
    (match mirrorEndpoints s lib s.config.mirrors with
     | .error _ => [.fsClose logPath]
     | .ok _ =>
       if goHasPrefix repoName (DefaultNamespace ++ "/") then
         -- lines 165, 175 (linux only), 184, then deferred close
         [.fsWrite logPath] ++ (if goos == "linux" then [.fsWrite logPath] else []) ++
           [.fsWrite logPath, .fsClose logPath]
       else if stringsIndexRune repoName '/' ≤ 0 then
         [.fsClose logPath]
       else
         match s.TLSConfig (hostnameOf repoName) with
         | .error _ => [.fsClose logPath]
         | .ok tlsConfig =>
           let isSecure := !tlsConfig.insecureSkipVerify
           -- lines 207, 224 (insecure only), 242, then deferred close
           [.fsWrite logPath] ++ (if !isSecure then [.fsWrite logPath] else []) ++
             [.fsWrite logPath, .fsClose logPath])

/-- Side effects of a `LookupPullEndpoints` call: exactly those of the single
`lookupEndpoints` call it makes. -/
def Service.lookupPullEffects (s : Service) (lib : URLLib) (goos : String)
    (repoName : String) : List Effect :=
  s.lookupEndpointsEffects lib goos repoName

/-- Side effects of a `LookupPushEndpoints` call: exactly those of the single
`lookupEndpoints` call it makes (the mirror filter at lines 127-131 is
pure). -/
def Service.lookupPushEffects (s : Service) (lib : URLLib) (goos : String)
    (repoName : String) : List Effect :=
  s.lookupEndpointsEffects lib goos repoName

/-! ### Concrete configurations used by witnesses and counterexamples -/

/-- A URL library in which every string parses and the whole string is taken
as the host. -/
def exLib : URLLib :=
  { parse := fun m => .ok { host := m } }

/-- A URL library in which parsing always fails, standing for a malformed
mirror URL. -/
def exLibFail : URLLib :=
  { parse := fun _ => .error "missing protocol scheme" }

/-- A service with no mirrors and one host explicitly classified insecure. -/
def exService : Service :=
  { config := { mirrors := [],
                insecureRegistries := ["insec.example.com"],
                certBundles := fun _ => [] } }

/-- A service with two secure mirrors. -/
def exMirrorService : Service :=
  { config := { mirrors := ["https://m1.example.com", "https://m2.example.com"],
                insecureRegistries := [],
                certBundles := fun _ => [] } }

/-- The pull output expected for `exMirrorService` on `library/x` on linux:
the two mirror candidates, then the canonical v2 and v1 endpoints. -/
def exMirrorOfficialOut : List APIEndpoint :=
  [{ url := "https://m1.example.com", version := .v2, mirror := true,
     trimHostname := true, tlsConfig := { insecureSkipVerify := false, rootCAs := [] } },
   { url := "https://m2.example.com", version := .v2, mirror := true,
     trimHostname := true, tlsConfig := { insecureSkipVerify := false, rootCAs := [] } },
   { url := DefaultV2Registry, version := .v2, official := true,
     trimHostname := true, tlsConfig := serverDefault },
   { url := DefaultV1Registry, version := .v1, official := true,
     trimHostname := true, tlsConfig := serverDefault }]

/-- A service whose single configured mirror uses a plaintext `http://`
URL. -/
def exHttpMirrorService : Service :=
  { config := { mirrors := ["http://m.example.com"],
                insecureRegistries := [],
                certBundles := fun _ => [] } }

/-! ### General lemmas about the embedding -/

theorem https_toList (t : String) :
    ("https://" ++ t).toList =
      'h' :: 't' :: 't' :: 'p' :: 's' :: ':' :: '/' :: '/' :: t.toList := by
  show ("https://" ++ t).data = _
  rw [String.data_append]
  rfl

/-- A URL beginning with `https://` is never classified as plaintext
`http://`. -/
theorem schemeIsHttp_https (t : String) :
    schemeIsHttp ("https://" ++ t) = false := by
  unfold schemeIsHttp
  rw [https_toList]
  rfl

/-- Shape of a successful mirror loop: one candidate per configured mirror,
in configured order, each tagged v2/mirror/trimHostname and carrying the
trust policy resolved for that mirror. -/
theorem mirrorEndpoints_spec (s : Service) (lib : URLLib) :
    ∀ (ms : List String) (es : List APIEndpoint),
      mirrorEndpoints s lib ms = .ok es →
      es.length = ms.length ∧
      ∀ i (hm : i < ms.length) (he : i < es.length),
        (es.get ⟨i, he⟩).url = ms.get ⟨i, hm⟩ ∧
        (es.get ⟨i, he⟩).version = APIVersion.v2 ∧
        (es.get ⟨i, he⟩).mirror = true ∧
        (es.get ⟨i, he⟩).trimHostname = true ∧
        s.tlsConfigForMirror lib (ms.get ⟨i, hm⟩) = .ok (es.get ⟨i, he⟩).tlsConfig := by
  intro ms
  induction ms with
  | nil =>
      intro es h
      simp only [mirrorEndpoints] at h
      cases h
      exact ⟨rfl, fun i hm _ => absurd hm (by simp)⟩
  | cons m rest ih =>
      intro es h
      simp only [mirrorEndpoints] at h
      cases hc : s.tlsConfigForMirror lib m with
      | error e => rw [hc] at h; cases h
      | ok tc =>
          rw [hc] at h
          cases hr : mirrorEndpoints s lib rest with
          | error e => rw [hr] at h; cases h
          | ok tail =>
              rw [hr] at h
              cases h
              obtain ⟨hlen, hpt⟩ := ih tail hr
              refine ⟨by simp [hlen], ?_⟩
              intro i hm he
              cases i with
              | zero => exact ⟨rfl, rfl, rfl, rfl, by simp [hc]⟩
              | succ j =>
                  have hm' : j < rest.length := by simpa using hm
                  have he' : j < tail.length := by simpa using he
                  simpa using hpt j hm' he'

/-- A trust-resolution failure on a mirror (all earlier mirrors resolving)
makes the mirror loop fail with exactly that error. -/
theorem mirrorEndpoints_error (s : Service) (lib : URLLib) :
    ∀ (pre : List String) (m : String) (post : List String) (e : GoError),
      (∀ m2 ∈ pre, ∃ t, s.tlsConfigForMirror lib m2 = .ok t) →
      s.tlsConfigForMirror lib m = .error e →
      mirrorEndpoints s lib (pre ++ m :: post) = .error e := by
  intro pre
  induction pre with
  | nil =>
      intro m post e _ hf
      simp only [List.nil_append, mirrorEndpoints, hf]
  | cons a as ih =>
      intro m post e hok hf
      obtain ⟨t, ht⟩ := hok a (by simp)
      have hrec := ih m post e (fun m2 hm2 => hok m2 (by simp [hm2])) hf
      simp only [List.cons_append, mirrorEndpoints, ht]
      rw [List.append_eq, hrec]

/-- Equation for `lookupEndpoints` on an official-namespace name: the mirror
candidates followed by the canonical v2 endpoint and, on linux, the canonical
v1 endpoint. -/
theorem lookupEndpoints_official_eq (s : Service) (lib : URLLib)
    (goos repoName : String) (ms : List APIEndpoint)
    (hms : mirrorEndpoints s lib s.config.mirrors = .ok ms)
    (hpre : goHasPrefix repoName (DefaultNamespace ++ "/") = true) :
    s.lookupEndpoints lib goos repoName =
      .ok (ms ++
        ([{ url := DefaultV2Registry, version := .v2, official := true,
            trimHostname := true, tlsConfig := serverDefault }] ++
         (if goos == "linux" then
            [{ url := DefaultV1Registry, version := .v1, official := true,
               trimHostname := true, tlsConfig := serverDefault }]
          else []))) := by
  simp only [Service.lookupEndpoints, hms, hpre]
  cases hg : (goos == "linux") <;> simp

/-- Equation for `lookupEndpoints` on a non-official name without a positive
slash index: the invalid-name error. -/
theorem lookupEndpoints_invalid_eq (s : Service) (lib : URLLib)
    (goos repoName : String) (ms : List APIEndpoint)
    (hms : mirrorEndpoints s lib s.config.mirrors = .ok ms)
    (hpre : goHasPrefix repoName (DefaultNamespace ++ "/") = false)
    (hidx : stringsIndexRune repoName '/' ≤ 0) :
    s.lookupEndpoints lib goos repoName = .error (.invalidRepoName repoName) := by
  simp only [Service.lookupEndpoints, hms, hpre]
  simp [hidx]

/-- Equation for `lookupEndpoints` on a non-official `host/rest` name: the
mirror candidates, the two `https://` candidates, and — exactly when the
resolved trust policy skips verification — the two `http://` candidates, all
four sharing the one resolved policy. -/
theorem lookupEndpoints_host_eq (s : Service) (lib : URLLib)
    (goos repoName : String) (ms : List APIEndpoint)
    (hms : mirrorEndpoints s lib s.config.mirrors = .ok ms)
    (hpre : goHasPrefix repoName (DefaultNamespace ++ "/") = false)
    (hidx : 0 < stringsIndexRune repoName '/') :
    s.lookupEndpoints lib goos repoName =
      .ok (ms ++
        ([{ url := "https://" ++ hostnameOf repoName, version := .v2,
            trimHostname := true, tlsConfig := hostTLSConfig s repoName,
            versionHeader := DefaultRegistryVersionHeader, versions := v2Versions },
          { url := "https://" ++ hostnameOf repoName, version := .v1,
            trimHostname := true, tlsConfig := hostTLSConfig s repoName }] ++
         (if (hostTLSConfig s repoName).insecureSkipVerify then
            [{ url := "http://" ++ hostnameOf repoName, version := .v2,
               trimHostname := true, tlsConfig := hostTLSConfig s repoName,
               versionHeader := DefaultRegistryVersionHeader, versions := v2Versions },
             { url := "http://" ++ hostnameOf repoName, version := .v1,
               trimHostname := true, tlsConfig := hostTLSConfig s repoName }]
          else []))) := by
  simp only [Service.lookupEndpoints, hms, hpre]
  rw [if_neg (not_le.mpr hidx)]
  simp only [Service.TLSConfig, hostTLSConfig, Bool.not_not]
  cases hsec : (newTLSConfig s.config.certBundles (hostnameOf repoName)
      (s.config.isSecureIndex (hostnameOf repoName))).insecureSkipVerify <;>
    simp [hsec]

/-! ### Claims -/

/-- C1, counterexample: with a configured plaintext mirror
`http://m.example.com` and the secure non-official name
`sec.example.com/app`, the pull output does contain a candidate with an
`http://` URL (the mirror itself), so the claim's clause "no candidate with
an http:// URL appears anywhere in the output" is false as stated. -/
theorem c1_counterexample :
    exHttpMirrorService.config.isSecureIndex "sec.example.com" = true ∧
    goHasPrefix "sec.example.com/app" (DefaultNamespace ++ "/") = false ∧
    anyHttpCandidate
      (exHttpMirrorService.LookupPullEndpoints exLib "linux" "sec.example.com/app") =
      true := by
  decide

/-- C1 (amended): for every non-official `host/rest` name whose host's
resolved trust policy verifies certificates, `LookupPullEndpoints` returns,
after the mirror candidates, exactly two candidates in this order —
`https://host` tagged v2 (trimHostname, the protocol-version discovery
header, advertised versions `registry/2.0`) followed by `https://host`
tagged v1 — and no candidate with an `http://` URL appears among these
post-mirror candidates (an `http://` URL can still occur as a configured
mirror URL in the mirror section). -/
theorem c1_secure_host_https_only (s : Service) (lib : URLLib)
    (goos repoName : String) (ms : List APIEndpoint)
    (hms : mirrorEndpoints s lib s.config.mirrors = .ok ms)
    (hpre : goHasPrefix repoName (DefaultNamespace ++ "/") = false)
    (hidx : 0 < stringsIndexRune repoName '/')
    (hsec : s.config.isSecureIndex (hostnameOf repoName) = true) :
    ∃ post,
      s.LookupPullEndpoints lib goos repoName = .ok (ms ++ post) ∧
      post =
        [{ url := "https://" ++ hostnameOf repoName, version := .v2,
           trimHostname := true, tlsConfig := hostTLSConfig s repoName,
           versionHeader := DefaultRegistryVersionHeader, versions := v2Versions },
         { url := "https://" ++ hostnameOf repoName, version := .v1,
           trimHostname := true, tlsConfig := hostTLSConfig s repoName }] ∧
      ∀ e ∈ post, schemeIsHttp e.url = false := by
  have hskip : (hostTLSConfig s repoName).insecureSkipVerify = false := by
    simp [hostTLSConfig, hsec, newTLSConfig]
  refine ⟨_, ?_, rfl, ?_⟩
  · have he := lookupEndpoints_host_eq s lib goos repoName ms hms hpre hidx
    rw [Service.LookupPullEndpoints, he, hskip]
    simp
  · intro e he
    simp only [List.mem_cons, List.not_mem_nil, or_false] at he
    rcases he with he | he <;> subst he <;> exact schemeIsHttp_https _

/-- C1, witness: the amended theorem applied to a service with no mirrors,
the secure host `reg.example.com`, and the name `reg.example.com/app`. -/
theorem c1_secure_host_https_only_witness :
    mirrorEndpoints exService exLib exService.config.mirrors = .ok [] ∧
    goHasPrefix "reg.example.com/app" (DefaultNamespace ++ "/") = false ∧
    0 < stringsIndexRune "reg.example.com/app" '/' ∧
    exService.config.isSecureIndex (hostnameOf "reg.example.com/app") = true ∧
    (∃ post,
      exService.LookupPullEndpoints exLib "linux" "reg.example.com/app" =
        .ok ([] ++ post) ∧
      post =
        [{ url := "https://" ++ hostnameOf "reg.example.com/app", version := .v2,
           trimHostname := true,
           tlsConfig := hostTLSConfig exService "reg.example.com/app",
           versionHeader := DefaultRegistryVersionHeader, versions := v2Versions },
         { url := "https://" ++ hostnameOf "reg.example.com/app", version := .v1,
           trimHostname := true,
           tlsConfig := hostTLSConfig exService "reg.example.com/app" }] ∧
      ∀ e ∈ post, schemeIsHttp e.url = false) :=
  ⟨by decide, by decide, by decide, by decide,
   c1_secure_host_https_only exService exLib "linux" "reg.example.com/app" []
     (by decide) (by decide) (by decide) (by decide)⟩

/-- C2: for every non-official `host/rest` name whose host is explicitly
classified insecure (the resolved trust policy skips verification),
`LookupPullEndpoints` returns, after the mirror candidates, exactly four
candidates in the order [https v2, https v1, http v2, http v1], and all four
carry the one trust policy resolved for that host (a single shared value
with skip-verify true; the source shares the one `*tls.Config` pointer,
which this embedding renders as the four fields being the same resolved
value, never recomputed). -/
theorem c2_insecure_host_four_candidates (s : Service) (lib : URLLib)
    (goos repoName : String) (ms : List APIEndpoint)
    (hms : mirrorEndpoints s lib s.config.mirrors = .ok ms)
    (hpre : goHasPrefix repoName (DefaultNamespace ++ "/") = false)
    (hidx : 0 < stringsIndexRune repoName '/')
    (hinsec : s.config.isSecureIndex (hostnameOf repoName) = false) :
    ∃ tc : TLSConfig,
      tc = hostTLSConfig s repoName ∧
      tc.insecureSkipVerify = true ∧
      s.LookupPullEndpoints lib goos repoName =
        .ok (ms ++
          [{ url := "https://" ++ hostnameOf repoName, version := .v2,
             trimHostname := true, tlsConfig := tc,
             versionHeader := DefaultRegistryVersionHeader, versions := v2Versions },
           { url := "https://" ++ hostnameOf repoName, version := .v1,
             trimHostname := true, tlsConfig := tc },
           { url := "http://" ++ hostnameOf repoName, version := .v2,
             trimHostname := true, tlsConfig := tc,
             versionHeader := DefaultRegistryVersionHeader, versions := v2Versions },
           { url := "http://" ++ hostnameOf repoName, version := .v1,
             trimHostname := true, tlsConfig := tc }]) := by
  have hskip : (hostTLSConfig s repoName).insecureSkipVerify = true := by
    simp [hostTLSConfig, hinsec, newTLSConfig]
  refine ⟨hostTLSConfig s repoName, rfl, hskip, ?_⟩
  have he := lookupEndpoints_host_eq s lib goos repoName ms hms hpre hidx
  rw [Service.LookupPullEndpoints, he, hskip]
  simp

/-- C2, witness: the theorem applied to the explicitly insecure host
`insec.example.com`. -/
theorem c2_insecure_host_four_candidates_witness :
    mirrorEndpoints exService exLib exService.config.mirrors = .ok [] ∧
    goHasPrefix "insec.example.com/app" (DefaultNamespace ++ "/") = false ∧
    0 < stringsIndexRune "insec.example.com/app" '/' ∧
    exService.config.isSecureIndex (hostnameOf "insec.example.com/app") = false ∧
    (∃ tc : TLSConfig,
      tc = hostTLSConfig exService "insec.example.com/app" ∧
      tc.insecureSkipVerify = true ∧
      exService.LookupPullEndpoints exLib "linux" "insec.example.com/app" =
        .ok ([] ++
          [{ url := "https://" ++ hostnameOf "insec.example.com/app", version := .v2,
             trimHostname := true, tlsConfig := tc,
             versionHeader := DefaultRegistryVersionHeader, versions := v2Versions },
           { url := "https://" ++ hostnameOf "insec.example.com/app", version := .v1,
             trimHostname := true, tlsConfig := tc },
           { url := "http://" ++ hostnameOf "insec.example.com/app", version := .v2,
             trimHostname := true, tlsConfig := tc,
             versionHeader := DefaultRegistryVersionHeader, versions := v2Versions },
           { url := "http://" ++ hostnameOf "insec.example.com/app", version := .v1,
             trimHostname := true, tlsConfig := tc }])) :=
  ⟨by decide, by decide, by decide, by decide,
   c2_insecure_host_four_candidates exService exLib "linux" "insec.example.com/app" []
     (by decide) (by decide) (by decide) (by decide)⟩

/-- C3: whenever pull-endpoint resolution succeeds, the output begins with
exactly one candidate per configured mirror, in configured order, each with
URL equal to that mirror, tagged v2, mirror = true, trimHostname = true, and
carrying the trust policy resolved for that mirror (via
`tlsConfigForMirror`, i.e. against the mirror's own host). -/
theorem c3_mirror_candidates_first (s : Service) (lib : URLLib)
    (goos repoName : String) (eps : List APIEndpoint)
    (h : s.LookupPullEndpoints lib goos repoName = .ok eps) :
    ∃ ms rest,
      mirrorEndpoints s lib s.config.mirrors = .ok ms ∧
      eps = ms ++ rest ∧
      ms.length = s.config.mirrors.length ∧
      ∀ i (hm : i < s.config.mirrors.length) (he : i < ms.length),
        (ms.get ⟨i, he⟩).url = s.config.mirrors.get ⟨i, hm⟩ ∧
        (ms.get ⟨i, he⟩).version = APIVersion.v2 ∧
        (ms.get ⟨i, he⟩).mirror = true ∧
        (ms.get ⟨i, he⟩).trimHostname = true ∧
        s.tlsConfigForMirror lib (s.config.mirrors.get ⟨i, hm⟩) =
          .ok (ms.get ⟨i, he⟩).tlsConfig := by
  cases hm : mirrorEndpoints s lib s.config.mirrors with
  | error e =>
      exfalso
      rw [Service.LookupPullEndpoints] at h
      simp only [Service.lookupEndpoints, hm] at h
      exact Except.noConfusion h
  | ok ms =>
      obtain ⟨hlen, hpt⟩ := mirrorEndpoints_spec s lib s.config.mirrors ms hm
      by_cases hp : goHasPrefix repoName (DefaultNamespace ++ "/") = true
      · have he := lookupEndpoints_official_eq s lib goos repoName ms hm hp
        rw [Service.LookupPullEndpoints, he] at h
        obtain rfl := Except.ok.inj h
        exact ⟨ms, _, rfl, rfl, hlen, hpt⟩
      · have hp' : goHasPrefix repoName (DefaultNamespace ++ "/") = false := by
          simpa using hp
        rcases le_or_lt (stringsIndexRune repoName '/') 0 with hle | hlt
        · have hinv := lookupEndpoints_invalid_eq s lib goos repoName ms hm hp' hle
          rw [Service.LookupPullEndpoints, hinv] at h
          cases h
        · have he := lookupEndpoints_host_eq s lib goos repoName ms hm hp' hlt
          rw [Service.LookupPullEndpoints, he] at h
          obtain rfl := Except.ok.inj h
          exact ⟨ms, _, rfl, rfl, hlen, hpt⟩

/-- C3, witness: the theorem applied to a service with two configured
mirrors and an official name. -/
theorem c3_mirror_candidates_first_witness :
    exMirrorService.LookupPullEndpoints exLib "linux" "library/x" =
      .ok exMirrorOfficialOut ∧
    (∃ ms rest,
      mirrorEndpoints exMirrorService exLib exMirrorService.config.mirrors = .ok ms ∧
      exMirrorOfficialOut = ms ++ rest ∧
      ms.length = exMirrorService.config.mirrors.length ∧
      ∀ i (hm : i < exMirrorService.config.mirrors.length) (he : i < ms.length),
        (ms.get ⟨i, he⟩).url = exMirrorService.config.mirrors.get ⟨i, hm⟩ ∧
        (ms.get ⟨i, he⟩).version = APIVersion.v2 ∧
        (ms.get ⟨i, he⟩).mirror = true ∧
        (ms.get ⟨i, he⟩).trimHostname = true ∧
        exMirrorService.tlsConfigForMirror exLib
            (exMirrorService.config.mirrors.get ⟨i, hm⟩) =
          .ok (ms.get ⟨i, he⟩).tlsConfig) :=
  ⟨by decide,
   c3_mirror_candidates_first exMirrorService exLib "linux" "library/x"
     exMirrorOfficialOut (by decide)⟩

/-- C4: for every name with the official `library/` namespace, pull output
is the mirror candidates followed by exactly the canonical v2 registry
endpoint plus — exactly when the legacy-v1 capability (`runtime.GOOS ==
"linux"` in the source) holds — the canonical v1 endpoint, both
official = true, trimHostname = true, with the default server trust policy.
The output is fully determined by the mirror section and `goos`, so
resolution returns at that point and the host-extraction and per-host steps
are never applied to such names. -/
theorem c4_official_canonical_endpoints (s : Service) (lib : URLLib)
    (goos repoName : String) (ms : List APIEndpoint)
    (hpre : goHasPrefix repoName (DefaultNamespace ++ "/") = true)
    (hms : mirrorEndpoints s lib s.config.mirrors = .ok ms) :
    s.LookupPullEndpoints lib goos repoName =
      .ok (ms ++
        ([{ url := DefaultV2Registry, version := .v2, official := true,
            trimHostname := true, tlsConfig := serverDefault }] ++
         (if goos == "linux" then
            [{ url := DefaultV1Registry, version := .v1, official := true,
               trimHostname := true, tlsConfig := serverDefault }]
          else []))) :=
  lookupEndpoints_official_eq s lib goos repoName ms hms hpre

/-- C4, witness: the theorem applied at `library/x`, with mirrors, on both a
legacy-capable (`linux`) and a non-legacy deployment. -/
theorem c4_official_canonical_endpoints_witness :
    goHasPrefix "library/x" (DefaultNamespace ++ "/") = true ∧
    exService.LookupPullEndpoints exLib "linux" "library/x" =
      .ok ([] ++
        ([{ url := DefaultV2Registry, version := .v2, official := true,
            trimHostname := true, tlsConfig := serverDefault }] ++
         (if "linux" == "linux" then
            [{ url := DefaultV1Registry, version := .v1, official := true,
               trimHostname := true, tlsConfig := serverDefault }]
          else []))) ∧
    exService.LookupPullEndpoints exLib "darwin" "library/x" =
      .ok ([] ++
        ([{ url := DefaultV2Registry, version := .v2, official := true,
            trimHostname := true, tlsConfig := serverDefault }] ++
         (if "darwin" == "linux" then
            [{ url := DefaultV1Registry, version := .v1, official := true,
               trimHostname := true, tlsConfig := serverDefault }]
          else []))) :=
  ⟨by decide,
   c4_official_canonical_endpoints exService exLib "linux" "library/x" []
     (by decide) (by decide),
   c4_official_canonical_endpoints exService exLib "darwin" "library/x" []
     (by decide) (by decide)⟩

/-- C5: for every repository name, push-endpoint output is pull-endpoint
output with every mirror-flagged candidate removed (`List.filter` keeps the
relative order of the remainder), and the two calls fail with the same
error on the same inputs. -/
theorem c5_push_is_pull_minus_mirrors (s : Service) (lib : URLLib)
    (goos repoName : String) :
    s.LookupPushEndpoints lib goos repoName =
      Except.map (fun endpoints => endpoints.filter (fun e => !e.mirror))
        (s.LookupPullEndpoints lib goos repoName) ∧
    ∀ e : GoError,
      (s.LookupPullEndpoints lib goos repoName = .error e ↔
       s.LookupPushEndpoints lib goos repoName = .error e) := by
  rw [Service.LookupPushEndpoints, Service.LookupPullEndpoints]
  cases h : s.lookupEndpoints lib goos repoName <;> simp [Except.map]

/-- C5, witness: the theorem evaluated on a mirror-carrying configuration
and on a failing one. -/
theorem c5_push_is_pull_minus_mirrors_witness :
    exMirrorService.LookupPushEndpoints exLib "linux" "library/x" =
      Except.map (fun endpoints => endpoints.filter (fun e => !e.mirror))
        (exMirrorService.LookupPullEndpoints exLib "linux" "library/x") ∧
    ∀ e : GoError,
      (exMirrorService.LookupPullEndpoints exLib "linux" "library/x" = .error e ↔
       exMirrorService.LookupPushEndpoints exLib "linux" "library/x" = .error e) :=
  c5_push_is_pull_minus_mirrors exMirrorService exLib "linux" "library/x"

/-- C6: if trust resolution fails for a configured mirror (all mirrors
before it resolving), both lookups return exactly that error and no
candidate list at all — not a partial list. -/
theorem c6_mirror_failure_aborts (s : Service) (lib : URLLib)
    (goos repoName : String) (pre : List String) (m : String)
    (post : List String) (e : GoError)
    (hsplit : s.config.mirrors = pre ++ m :: post)
    (hok : ∀ m2 ∈ pre, ∃ t, s.tlsConfigForMirror lib m2 = .ok t)
    (hfail : s.tlsConfigForMirror lib m = .error e) :
    s.LookupPullEndpoints lib goos repoName = .error e ∧
    s.LookupPushEndpoints lib goos repoName = .error e := by
  have hm : mirrorEndpoints s lib s.config.mirrors = .error e := by
    rw [hsplit]
    exact mirrorEndpoints_error s lib pre m post e hok hfail
  constructor
  · rw [Service.LookupPullEndpoints]
    simp [Service.lookupEndpoints, hm]
  · rw [Service.LookupPushEndpoints]
    simp [Service.lookupEndpoints, hm]

/-- C6, witness: a mirror whose URL fails to parse aborts both lookups with
the parse error, even for an otherwise resolvable name. -/
theorem c6_mirror_failure_aborts_witness :
    exMirrorService.config.mirrors = [] ++ "https://m1.example.com" :: ["https://m2.example.com"] ∧
    exMirrorService.tlsConfigForMirror exLibFail "https://m1.example.com" =
      .error (.parseError "missing protocol scheme") ∧
    (exMirrorService.LookupPullEndpoints exLibFail "linux" "library/x" =
      .error (.parseError "missing protocol scheme") ∧
     exMirrorService.LookupPushEndpoints exLibFail "linux" "library/x" =
      .error (.parseError "missing protocol scheme")) :=
  ⟨by decide, by decide,
   c6_mirror_failure_aborts exMirrorService exLibFail "linux" "library/x"
     [] "https://m1.example.com" ["https://m2.example.com"]
     (.parseError "missing protocol scheme")
     (by decide) (by intro m2 hm2; cases hm2) (by decide)⟩

/-- C7: a non-official name with no `'/'` or with its first `'/'` at
position 0 makes both lookups fail with the invalid-name error and return no
candidates (this is the behaviour once the mirror loop, which runs first,
has succeeded; a failing mirror would instead abort with its own error,
claim C6). -/
theorem c7_invalid_name_error (s : Service) (lib : URLLib)
    (goos repoName : String) (ms : List APIEndpoint)
    (hms : mirrorEndpoints s lib s.config.mirrors = .ok ms)
    (hpre : goHasPrefix repoName (DefaultNamespace ++ "/") = false)
    (hidx : stringsIndexRune repoName '/' ≤ 0) :
    s.LookupPullEndpoints lib goos repoName = .error (.invalidRepoName repoName) ∧
    s.LookupPushEndpoints lib goos repoName = .error (.invalidRepoName repoName) := by
  have h := lookupEndpoints_invalid_eq s lib goos repoName ms hms hpre hidx
  exact ⟨h, by rw [Service.LookupPushEndpoints, h]⟩

/-- C7, witness: both spec examples — `noSlashHere` (no separator) and
`/leadingslash` (empty host segment). -/
theorem c7_invalid_name_error_witness :
    (exService.LookupPullEndpoints exLib "linux" "noSlashHere" =
       .error (.invalidRepoName "noSlashHere") ∧
     exService.LookupPushEndpoints exLib "linux" "noSlashHere" =
       .error (.invalidRepoName "noSlashHere")) ∧
    (exService.LookupPullEndpoints exLib "linux" "/leadingslash" =
       .error (.invalidRepoName "/leadingslash") ∧
     exService.LookupPushEndpoints exLib "linux" "/leadingslash" =
       .error (.invalidRepoName "/leadingslash")) :=
  ⟨c7_invalid_name_error exService exLib "linux" "noSlashHere" []
     (by decide) (by decide) (by decide),
   c7_invalid_name_error exService exLib "linux" "/leadingslash" []
     (by decide) (by decide) (by decide)⟩

/-- C8: endpoint resolution is deterministic — with the same repository name
and the same configuration snapshot (service, URL library, GOOS), two pull
calls agree and two push calls agree, on both candidate lists and errors.
This holds because the embedding of `lookupEndpoints` is a pure function of
those inputs, mirroring the source, whose output depends only on the
configuration snapshot and the name (the diagnostic log writes do not feed
back into the result). -/
theorem c8_resolution_deterministic (s : Service) (lib : URLLib)
    (goos repoName : String)
    (r1 r2 p1 p2 : Except GoError (List APIEndpoint))
    (h1 : s.LookupPullEndpoints lib goos repoName = r1)
    (h2 : s.LookupPullEndpoints lib goos repoName = r2)
    (h3 : s.LookupPushEndpoints lib goos repoName = p1)
    (h4 : s.LookupPushEndpoints lib goos repoName = p2) :
    r1 = r2 ∧ p1 = p2 :=
  ⟨h1 ▸ h2, h3 ▸ h4⟩

/-- C8, witness: two evaluations of the same call on a concrete
configuration agree. -/
theorem c8_resolution_deterministic_witness :
    exMirrorService.LookupPullEndpoints exLib "linux" "library/x" =
      .ok exMirrorOfficialOut ∧
    (Except.ok exMirrorOfficialOut :
        Except GoError (List APIEndpoint)) = .ok exMirrorOfficialOut ∧
    (Except.ok (exMirrorOfficialOut.filter (fun e => !e.mirror)) :
        Except GoError (List APIEndpoint)) =
      .ok (exMirrorOfficialOut.filter (fun e => !e.mirror)) :=
  ⟨by decide,
   (c8_resolution_deterministic exMirrorService exLib "linux" "library/x"
      (.ok exMirrorOfficialOut) (.ok exMirrorOfficialOut)
      (.ok (exMirrorOfficialOut.filter (fun e => !e.mirror)))
      (.ok (exMirrorOfficialOut.filter (fun e => !e.mirror)))
      (by decide) (by decide) (by decide) (by decide)).1,
   (c8_resolution_deterministic exMirrorService exLib "linux" "library/x"
      (.ok exMirrorOfficialOut) (.ok exMirrorOfficialOut)
      (.ok (exMirrorOfficialOut.filter (fun e => !e.mirror)))
      (.ok (exMirrorOfficialOut.filter (fun e => !e.mirror)))
      (by decide) (by decide) (by decide) (by decide)).2⟩

/-- Every effect the mirror loop logs is a filesystem operation on the fixed
log path. -/
theorem mirrorEffects_fileOps (s : Service) (lib : URLLib) :
    ∀ (ms : List String), ∀ ev ∈ mirrorEffects s lib ms,
      ev.isFileOpOn logPath = true := by
  intro ms
  induction ms with
  | nil => intro ev h; cases h
  | cons m rest ih =>
      intro ev h
      simp only [mirrorEffects] at h
      cases hc : s.tlsConfigForMirror lib m with
      | error e => rw [hc] at h; cases h
      | ok t =>
          rw [hc] at h
          rcases List.mem_cons.mp h with rfl | h2
          · rfl
          · exact ih ev h2

/-- Every effect in the trace of `lookupEndpoints` is a filesystem operation
on `/tmp/myDocker.log`; in particular none is network I/O. -/
theorem lookupEndpointsEffects_fileOps (s : Service) (lib : URLLib)
    (goos repoName : String) :
    ∀ ev ∈ s.lookupEndpointsEffects lib goos repoName,
      ev.isFileOpOn logPath = true := by
  intro ev h
  simp only [Service.lookupEndpointsEffects] at h
  rcases List.mem_append.mp h with h12 | h3
  · rcases List.mem_append.mp h12 with h1 | h2
    · rcases List.mem_cons.mp h1 with rfl | h1b
      · rfl
      · rcases List.mem_cons.mp h1b with rfl | h1c
        · rfl
        · cases h1c
    · exact mirrorEffects_fileOps s lib s.config.mirrors ev h2
  · revert h3
    split
    · intro h3
      rcases List.mem_cons.mp h3 with rfl | h3b
      · rfl
      · cases h3b
    · split
      · intro h3
        rcases List.mem_append.mp h3 with h4 | h5
        · rcases List.mem_append.mp h4 with h6 | h7
          · rcases List.mem_cons.mp h6 with rfl | h6b
            · rfl
            · cases h6b
          · revert h7
            split
            · intro h7
              rcases List.mem_cons.mp h7 with rfl | h7b
              · rfl
              · cases h7b
            · intro h7; cases h7
        · rcases List.mem_cons.mp h5 with rfl | h5b
          · rfl
          · rcases List.mem_cons.mp h5b with rfl | h5c
            · rfl
            · cases h5c
      · split
        · intro h3
          rcases List.mem_cons.mp h3 with rfl | h3b
          · rfl
          · cases h3b
        · split
          · intro h3
            rcases List.mem_cons.mp h3 with rfl | h3b
            · rfl
            · cases h3b
          · intro h3
            rcases List.mem_append.mp h3 with h4 | h5
            · rcases List.mem_append.mp h4 with h6 | h7
              · rcases List.mem_cons.mp h6 with rfl | h6b
                · rfl
                · cases h6b
              · revert h7
                split
                · intro h7
                  rcases List.mem_cons.mp h7 with rfl | h7b
                  · rfl
                  · cases h7b
                · intro h7; cases h7
            · rcases List.mem_cons.mp h5 with rfl | h5b
              · rfl
              · rcases List.mem_cons.mp h5b with rfl | h5c
                · rfl
                · cases h5c

/-- C9, counterexample: on the concrete call
`LookupPullEndpoints "library/x"` the effect trace contains the opening of
`/tmp/myDocker.log` — a filesystem operation (service.go line 140) — so the
claim's "no filesystem I/O" is false as stated. -/
theorem c9_counterexample :
    Effect.fsOpenAppend logPath ∈
      exService.lookupPullEffects exLib "linux" "library/x" ∧
    (Effect.fsOpenAppend logPath).isFileOpOn logPath = true := by
  decide

/-- C9 (amended): `LookupPullEndpoints` and `LookupPushEndpoints` perform no
network I/O, and their only side effects beyond reading the configuration
are filesystem operations on the one fixed diagnostic log file
`/tmp/myDocker.log` (opened for append, written, closed); all other state
outside the return value is untouched, and the returned value itself is the
pure function of name and configuration embedded by `lookupEndpoints`. -/
theorem c9_effects_confined_to_log (s : Service) (lib : URLLib)
    (goos repoName : String) (ev : Effect)
    (hev : ev ∈ s.lookupPullEffects lib goos repoName ∨
           ev ∈ s.lookupPushEffects lib goos repoName) :
    ev.isFileOpOn logPath = true := by
  rcases hev with h | h
  · exact lookupEndpointsEffects_fileOps s lib goos repoName ev h
  · exact lookupEndpointsEffects_fileOps s lib goos repoName ev h

/-- C9, witness: the amended theorem applied to the first effect of a
concrete call. -/
theorem c9_effects_confined_to_log_witness :
    (Effect.fsOpenAppend logPath ∈
       exService.lookupPullEffects exLib "linux" "library/x" ∨
     Effect.fsOpenAppend logPath ∈
       exService.lookupPushEffects exLib "linux" "library/x") ∧
    (Effect.fsOpenAppend logPath).isFileOpOn logPath = true :=
  ⟨Or.inl (by decide),
   c9_effects_confined_to_log exService exLib "linux" "library/x"
     (Effect.fsOpenAppend logPath) (Or.inl (by decide))⟩

/-- A failing `tlsConfigForMirror` always fails with a URL parse error. -/
theorem tlsConfigForMirror_error_is_parse (s : Service) (lib : URLLib)
    (m : String) (e : GoError)
    (h : s.tlsConfigForMirror lib m = .error e) : ∃ msg, e = .parseError msg := by
  unfold Service.tlsConfigForMirror at h
  cases hp : lib.parse m with
  | error msg =>
      rw [hp] at h
      cases h
      exact ⟨msg, rfl⟩
  | ok u =>
      rw [hp] at h
      simp only [Service.TLSConfig] at h
      cases h

/-- A failing mirror loop always fails with a URL parse error, never with
the invalid-name error. -/
theorem mirrorEndpoints_error_is_parse (s : Service) (lib : URLLib) :
    ∀ (ms : List String) (e : GoError), mirrorEndpoints s lib ms = .error e →
      ∃ msg, e = .parseError msg := by
  intro ms
  induction ms with
  | nil => intro e h; cases h
  | cons m rest ih =>
      intro e h
      simp only [mirrorEndpoints] at h
      cases hc : s.tlsConfigForMirror lib m with
      | error e2 =>
          rw [hc] at h
          cases h
          exact tlsConfigForMirror_error_is_parse s lib m e hc
      | ok t =>
          rw [hc] at h
          cases hr : mirrorEndpoints s lib rest with
          | error e3 =>
              rw [hr] at h
              cases h
              exact ih e hr
          | ok tail => rw [hr] at h; cases h

/-- C10: the official-namespace test is a string-prefix check made before
any name validation: (i) every name with the `library/` prefix — including
the degenerate `library/` — resolves, once the mirror loop has succeeded, to
the mirror candidates followed by the canonical endpoints, and (ii) the
invalid-name error can only ever be produced for a name without the official
prefix. -/
theorem c10_official_check_before_validation :
    (∀ (s : Service) (lib : URLLib) (goos repoName : String)
        (ms : List APIEndpoint),
        goHasPrefix repoName (DefaultNamespace ++ "/") = true →
        mirrorEndpoints s lib s.config.mirrors = .ok ms →
        s.LookupPullEndpoints lib goos repoName =
          .ok (ms ++
            ([{ url := DefaultV2Registry, version := .v2, official := true,
                trimHostname := true, tlsConfig := serverDefault }] ++
             (if goos == "linux" then
                [{ url := DefaultV1Registry, version := .v1, official := true,
                   trimHostname := true, tlsConfig := serverDefault }]
              else [])))) ∧
    (∀ (s : Service) (lib : URLLib) (goos repoName n : String),
        s.LookupPullEndpoints lib goos repoName = .error (.invalidRepoName n) →
        goHasPrefix repoName (DefaultNamespace ++ "/") = false) := by
  constructor
  · intro s lib goos repoName ms hpre hms
    exact lookupEndpoints_official_eq s lib goos repoName ms hms hpre
  · intro s lib goos repoName n h
    by_contra hcon
    have hpre : goHasPrefix repoName (DefaultNamespace ++ "/") = true := by
      simpa using hcon
    cases hm : mirrorEndpoints s lib s.config.mirrors with
    | error e =>
        rw [Service.LookupPullEndpoints] at h
        simp only [Service.lookupEndpoints, hm] at h
        obtain ⟨msg, rfl⟩ :=
          mirrorEndpoints_error_is_parse s lib s.config.mirrors e hm
        cases h
    | ok ms =>
        have he := lookupEndpoints_official_eq s lib goos repoName ms hm hpre
        rw [Service.LookupPullEndpoints, he] at h
        cases h

/-- C10, witness: part (i) at the degenerate official name `library/` (which
never sees the invalid-name check although it has an empty remainder), and
part (ii) at a concrete invalid-name failure. -/
theorem c10_official_check_before_validation_witness :
    goHasPrefix "library/" (DefaultNamespace ++ "/") = true ∧
    exService.LookupPullEndpoints exLib "linux" "library/" =
      .ok ([] ++
        ([{ url := DefaultV2Registry, version := .v2, official := true,
            trimHostname := true, tlsConfig := serverDefault }] ++
         (if "linux" == "linux" then
            [{ url := DefaultV1Registry, version := .v1, official := true,
               trimHostname := true, tlsConfig := serverDefault }]
          else []))) ∧
    goHasPrefix "noSlashHere" (DefaultNamespace ++ "/") = false :=
  ⟨by decide,
   c10_official_check_before_validation.1 exService exLib "linux" "library/" []
     (by decide) (by decide),
   c10_official_check_before_validation.2 exService exLib "linux" "noSlashHere"
     "noSlashHere" (by decide)⟩

end Registry

